import Mathlib

/-
Verification of the route module of the Bynry backend case study
(src/routes.py).  The source registers a single Flask blueprint route,
"/health", bound to the handler `health_check`, which returns the literal
dict mapping "status" to "Backend Case Study API Running".

The route table and the handler are embedded directly from the source.
The hosting framework (route matching, JSON serialisation of the returned
dict, not-found / method-not-allowed fallthrough) is not part of this
repository's sources; it is modelled from the specification's description
of the framework's default behaviour.
-/

namespace RoutesSpec

/-- HTTP request methods relevant to route matching. -/
inductive Method where
  | GET
  | POST
  | PUT
  | DELETE
  | PATCH
  | HEAD
  | OPTIONS
deriving DecidableEq

/-- JSON values, enough to express the handler's payload: strings and
objects given as ordered key-value lists (so that object equality pins
down the exact key set, with no additional keys). -/
inductive Json where
  | jstr (s : String)
  | jobj (entries : List (String × Json))

/-- An incoming HTTP request: the method and path used for routing,
together with all the request data a handler could in principle consume
(query parameters, headers, body). -/
structure Request where
  method : Method
  path : String
  query : List (String × String)
  headers : List (String × String)
  body : String

/-- Identifiers of the handlers registered by src/routes.py.  The module
defines exactly one handler, `health_check`. -/
inductive Handler where
  | health_check_h
deriving DecidableEq

/-- Embedding of `health_check` (src/routes.py, lines 6-7): the body is a
single return of the literal dict with the one key "status". -/
def health_check : Json :=
  Json.jobj [("status", Json.jstr "Backend Case Study API Running")]

/-- Calling a registered handler on a request.  A Python handler may in
general raise, so the result lives in `Except`; the body of
`health_check` takes no arguments, consumes nothing from the request, and
performs no operation that can raise, so its embedding ignores the
request and always returns `Except.ok`. -/
def runHandler : Handler → Request → Except String Json
  | Handler.health_check_h, _ => Except.ok health_check

/-- A registered route: URL rule, allowed methods, and the bound handler. -/
structure Route where
  rule : String
  methods : List Method
  handler : Handler

/-- Embedding of the single registration in src/routes.py, line 5:
`@api_routes.route("/health")` with no `methods` argument registers the
exact rule "/health" for the default method GET, bound to `health_check`. -/
def healthRoute : Route :=
  { rule := "/health", methods := [Method.GET], handler := Handler.health_check_h }

/-- Embedding of the `api_routes` blueprint's route table: the module
registers exactly one route. -/
def api_routes : List Route :=
  [healthRoute]

/-- An HTTP response: status code, content type, and the JSON payload when
a handler produced one (`none` when the framework answered without
invoking any handler). -/
structure Response where
  status : Nat
  contentType : String
  body : Option Json

/-- Modelled from the spec: the framework's route matching.  A request
path matches a route exactly when it equals the registered rule string. -/
def findRoute (routes : List Route) (path : String) : Option Route :=
  routes.find? (fun r => r.rule == path)

/-- Modelled from the spec: framework dispatch over a route table.  An
unmatched path yields the framework's not-found response; a matched path
with a method outside the route's method list yields method-not-allowed;
otherwise the handler runs and its dict is serialised as a 200 JSON
response (a raising handler would surface as a framework-level 500). -/
def dispatch (routes : List Route) (req : Request) : Response :=
  match findRoute routes req.path with
  | none => { status := 404, contentType := "text/html", body := none }
  | some r =>
    if req.method ∈ r.methods then
      match runHandler r.handler req with
      | Except.ok v =>
          { status := 200, contentType := "application/json", body := some v }
      | Except.error _ =>
          { status := 500, contentType := "text/html", body := none }
    else
      { status := 405, contentType := "text/html", body := none }

/-- The response produced for a matched GET /health request. -/
def healthResponse : Response :=
  { status := 200, contentType := "application/json", body := some health_check }

/-- One invocation of the application on observable state `s`: the source
touches no program state anywhere (the handler body is a single return of
a literal), so the embedding threads the state through unchanged next to
the computed response. -/
def appStep {σ : Type} (s : σ) (req : Request) : σ × Response :=
  (s, dispatch api_routes req)

/-- A sequence of `n` successive invocations of the application on the
same request, threading the observable state through each call and
collecting the responses in order. -/
def runSeq {σ : Type} (req : Request) : Nat → σ → σ × List Response
  | 0, s => (s, [])
  | Nat.succ n, s =>
    let p := appStep s req
    let q := runSeq req n p.1
    (q.1, p.2 :: q.2)

/-- A concrete request with the given method and path and no query
parameters, headers or body. -/
def mkReq (m : Method) (p : String) : Request :=
  { method := m, path := p, query := [], headers := [], body := "" }

/-- Route lookup over the table of src/routes.py in closed form: a path
finds the health route exactly when it is the literal string "/health". -/
theorem findRoute_api (p : String) :
    findRoute api_routes p = if p = "/health" then some healthRoute else none := by
  by_cases h : p = "/health"
  · simp [findRoute, api_routes, healthRoute, List.find?, h]
  · have hb : ("/health" == p) = false := beq_eq_false_iff_ne.mpr (Ne.symm h)
    simp [findRoute, api_routes, healthRoute, List.find?, hb, h]

/-- Dispatch over the table of src/routes.py in closed form. -/
theorem dispatch_api (req : Request) :
    dispatch api_routes req =
      if req.path = "/health" then
        (if req.method = Method.GET then healthResponse
         else { status := 405, contentType := "text/html", body := none })
      else { status := 404, contentType := "text/html", body := none } := by
  unfold dispatch
  rw [findRoute_api]
  by_cases hp : req.path = "/health"
  · by_cases hm : req.method = Method.GET <;>
      simp [hp, hm, healthRoute, runHandler, healthResponse]
  · simp [hp]

/-- C1: for every HTTP GET request to the path /health, the route table
dispatches to health_check and the response has status 200 and a JSON
body that is exactly the object mapping "status" to
"Backend Case Study API Running", with no additional keys. -/
theorem health_get_ok (req : Request)
    (hp : req.path = "/health") (hm : req.method = Method.GET) :
    (findRoute api_routes req.path).map Route.handler = some Handler.health_check_h ∧
    dispatch api_routes req =
      { status := 200, contentType := "application/json",
        body := some (Json.jobj [("status", Json.jstr "Backend Case Study API Running")]) } := by
  constructor
  · rw [findRoute_api]
    simp [hp, healthRoute]
  · rw [dispatch_api]
    simp [hp, hm, healthResponse, health_check]

/-- C1 witness: the concrete request GET /health. -/
theorem health_get_ok_witness :
    (mkReq Method.GET "/health").path = "/health" ∧
    (mkReq Method.GET "/health").method = Method.GET ∧
    dispatch api_routes (mkReq Method.GET "/health") =
      { status := 200, contentType := "application/json",
        body := some (Json.jobj [("status", Json.jstr "Backend Case Study API Running")]) } :=
  ⟨rfl, rfl, (health_get_ok (mkReq Method.GET "/health") rfl rfl).2⟩

/-- C2: any request whose path is not /health, or whose method is not the
one routed for /health, is not dispatched to health_check (no handler
body is produced) and gets the framework's not-found or
method-not-allowed response. -/
theorem non_health_not_dispatched (req : Request)
    (h : ¬ (req.path = "/health" ∧ req.method = Method.GET)) :
    ((dispatch api_routes req).status = 404 ∨ (dispatch api_routes req).status = 405) ∧
    (dispatch api_routes req).body = none := by
  rw [dispatch_api]
  by_cases hp : req.path = "/health"
  · have hm : ¬ req.method = Method.GET := fun hm => h ⟨hp, hm⟩
    simp [hp, hm]
  · simp [hp]

/-- C2 witness: the concrete request POST /health. -/
theorem non_health_not_dispatched_witness :
    ¬ ((mkReq Method.POST "/health").path = "/health" ∧
        (mkReq Method.POST "/health").method = Method.GET) ∧
    (((dispatch api_routes (mkReq Method.POST "/health")).status = 404 ∨
      (dispatch api_routes (mkReq Method.POST "/health")).status = 405) ∧
     (dispatch api_routes (mkReq Method.POST "/health")).body = none) :=
  ⟨by decide, non_health_not_dispatched (mkReq Method.POST "/health") (by decide)⟩

/-- C3: the registration binds /health to exactly the HTTP method GET:
the route's method list is the singleton [GET], and a request to /health
is answered by health_check with status 200 precisely when its method is
GET. -/
theorem health_route_get_only :
    healthRoute.methods = [Method.GET] ∧
    ∀ req : Request, req.path = "/health" →
      (((dispatch api_routes req).body = some health_check ∧
        (dispatch api_routes req).status = 200) ↔ req.method = Method.GET) := by
  refine ⟨rfl, ?_⟩
  intro req hp
  rw [dispatch_api]
  by_cases hm : req.method = Method.GET
  · simp [hp, hm, healthResponse]
  · simp [hp, hm]

/-- C3 witness: at the concrete request GET /health the route matches and
health_check answers with status 200. -/
theorem health_route_get_only_witness :
    (mkReq Method.GET "/health").path = "/health" ∧
    ((dispatch api_routes (mkReq Method.GET "/health")).body = some health_check ∧
     (dispatch api_routes (mkReq Method.GET "/health")).status = 200) :=
  ⟨rfl, (health_route_get_only.2 (mkReq Method.GET "/health") rfl).2 rfl⟩

/-- C4: every GET request to /health is answered with content type
application/json (the dict returned by health_check is serialised as a
JSON response). -/
theorem health_content_type (req : Request)
    (hp : req.path = "/health") (hm : req.method = Method.GET) :
    (dispatch api_routes req).contentType = "application/json" := by
  rw [dispatch_api]
  simp [hp, hm, healthResponse]

/-- C4 witness: the concrete request GET /health. -/
theorem health_content_type_witness :
    (mkReq Method.GET "/health").path = "/health" ∧
    (mkReq Method.GET "/health").method = Method.GET ∧
    (dispatch api_routes (mkReq Method.GET "/health")).contentType = "application/json" :=
  ⟨rfl, rfl, health_content_type (mkReq Method.GET "/health") rfl rfl⟩

/-- C5: the endpoint is idempotent: for every n, a sequence of n GET
/health invocations leaves every observable state unchanged and each
invocation returns the same response as the first. -/
theorem health_idempotent {σ : Type} (s : σ) (req : Request)
    (hp : req.path = "/health") (hm : req.method = Method.GET) :
    ∀ n : Nat, (runSeq req n s).1 = s ∧
      (runSeq req n s).2 = List.replicate n healthResponse := by
  have hresp : dispatch api_routes req = healthResponse := by
    rw [dispatch_api]
    simp [hp, hm]
  intro n
  induction n with
  | zero => exact ⟨rfl, rfl⟩
  | succ n ih =>
    refine ⟨?_, ?_⟩
    · simpa [runSeq, appStep] using ih.1
    · simp [runSeq, appStep, ih.2, hresp, List.replicate]

/-- C5 witness: two successive GET /health invocations starting from the
state 0 leave the state at 0 and return the health response twice. -/
theorem health_idempotent_witness :
    (mkReq Method.GET "/health").path = "/health" ∧
    (runSeq (mkReq Method.GET "/health") 2 (0 : Nat)).1 = 0 ∧
    (runSeq (mkReq Method.GET "/health") 2 (0 : Nat)).2 = List.replicate 2 healthResponse :=
  ⟨rfl, (health_idempotent 0 (mkReq Method.GET "/health") rfl rfl 2).1,
    (health_idempotent 0 (mkReq Method.GET "/health") rfl rfl 2).2⟩

/-- C6: the handler consumes no request data: any two GET /health
requests, whatever their query parameters, headers or bodies, produce
equal responses. -/
theorem health_noninterference (r1 r2 : Request)
    (h1p : r1.path = "/health") (h1m : r1.method = Method.GET)
    (h2p : r2.path = "/health") (h2m : r2.method = Method.GET) :
    dispatch api_routes r1 = dispatch api_routes r2 := by
  rw [dispatch_api, dispatch_api]
  simp [h1p, h1m, h2p, h2m]

/-- C6 witness: a bare GET /health request and one carrying query
parameters, headers and a body get equal responses. -/
theorem health_noninterference_witness :
    (mkReq Method.GET "/health").path = "/health" ∧
    (Request.mk Method.GET "/health" [("a", "b")] [("x", "y")] "data").path = "/health" ∧
    dispatch api_routes (mkReq Method.GET "/health") =
      dispatch api_routes (Request.mk Method.GET "/health" [("a", "b")] [("x", "y")] "data") :=
  ⟨rfl, rfl,
    health_noninterference (mkReq Method.GET "/health")
      (Request.mk Method.GET "/health" [("a", "b")] [("x", "y")] "data") rfl rfl rfl rfl⟩

/-- C7: the handler cannot itself fail: on every invocation health_check
returns its literal dict without error, and no dispatch ever surfaces a
handler failure (status 500). -/
theorem health_check_never_fails (req : Request) :
    runHandler Handler.health_check_h req = Except.ok health_check ∧
    (dispatch api_routes req).status ≠ 500 := by
  refine ⟨rfl, ?_⟩
  rw [dispatch_api]
  by_cases hp : req.path = "/health"
  · by_cases hm : req.method = Method.GET <;> simp [hp, hm, healthResponse]
  · simp [hp]

/-- C8: invoking health_check has no side effects: every observable state
is unchanged by an invocation, and the returned mapping is the same
constant literal on every invocation. -/
theorem health_check_no_side_effects (σ : Type) (s : σ) (req r' : Request) :
    (appStep s req).1 = s ∧
    runHandler Handler.health_check_h req = runHandler Handler.health_check_h r' ∧
    runHandler Handler.health_check_h req = Except.ok health_check :=
  ⟨rfl, rfl, rfl⟩

/-- C9: the route table of the api_routes blueprint contains exactly one
entry, the one binding /health to health_check. -/
theorem api_routes_single_entry :
    api_routes.length = 1 ∧
    api_routes.map Route.rule = ["/health"] ∧
    api_routes.map Route.handler = [Handler.health_check_h] :=
  ⟨rfl, rfl, rfl⟩

/-- C10: the registered rule is the exact string "/health", so a request
to "/health/" matches no route, is not dispatched to health_check, and
falls through to the framework's not-found response. -/
theorem trailing_slash_not_matched (req : Request) (hp : req.path = "/health/") :
    findRoute api_routes req.path = none ∧
    (dispatch api_routes req).status = 404 ∧
    (dispatch api_routes req).body = none := by
  have hne : ¬ req.path = "/health" := by
    rw [hp]
    decide
  refine ⟨?_, ?_, ?_⟩
  · rw [findRoute_api]
    simp [hne]
  · rw [dispatch_api]
    simp [hne]
  · rw [dispatch_api]
    simp [hne]

/-- C10 witness: the concrete request GET /health/ gets a 404 with no
handler output. -/
theorem trailing_slash_not_matched_witness :
    (mkReq Method.GET "/health/").path = "/health/" ∧
    (findRoute api_routes (mkReq Method.GET "/health/").path = none ∧
     (dispatch api_routes (mkReq Method.GET "/health/")).status = 404 ∧
     (dispatch api_routes (mkReq Method.GET "/health/")).body = none) :=
  ⟨rfl, trailing_slash_not_matched (mkReq Method.GET "/health/") rfl⟩

end RoutesSpec
